import Mathlib

/-!
Verification of the authselect Ansible module
(src/plugins/modules/authselect.py) against its design specification.

The module's executable logic consists of two functions:

* `get_authselect_state` (lines 84-99): runs `/usr/bin/authselect current
  --raw`, classifies the result by exit code, and parses stdout with the
  Python regexes `^(?P<profile>\w+)\W+(?P<features>.*)$` and a `\W+` split.
* `run_module` (lines 102-153): the module body.  It exits immediately in
  check mode, otherwise reads the state once, stores the whole state dict
  in `result['original_profile']`, fails unconditionally when the requested
  profile is the literal `'fail me'`, and exits.  It contains no commit
  logic and never sets `changed`.

Both are embedded below as executable Lean functions, together with the
observable effects of a module invocation (which external commands were
run, and the external system state afterwards).
-/

namespace Authselect

/-- A Python `\w` word character, as the regexes in `get_authselect_state`
use it (ASCII range; every input exercised here is ASCII). -/
def isW (c : Char) : Bool := c.isAlphanum || c == '_'

/-- Python `s.rstrip("\n\r")`: drop trailing newline / carriage-return
characters (line 90 of the source). -/
def rstripNL (s : String) : String :=
  String.mk ((s.toList.reverse.dropWhile fun c => c == '\n' || c == '\r').reverse)

/-- Python `re.match(r'^(?P<profile>\w+)\W+(?P<features>.*)$', s)` (line 92
of the source): `some (profile, features)` on a match, `none` when the
pattern does not match (the source then dereferences the `None`, an
`AttributeError`).  The semantics follow Python's `re`: the match is
anchored at the start, `.` does not match a newline, and `$` matches at the
end of the string or just before a final newline.  Backtracking never
changes the greedy choices here: `\w+` must take the maximal word-character
prefix (anything shorter leaves `\W+` facing a word character), and
shrinking the maximal `\W+` run only prepends characters to the `.*$`
region, never removing an offending interior newline. -/
def matchProfileFeatures (s : String) : Option (String × String) :=
  let cs := s.toList
  let w := cs.takeWhile isW
  let rest := cs.dropWhile isW
  let rem := rest.dropWhile (fun c => !(isW c))
  if w.isEmpty || rest.isEmpty then none
  else if !(rem.contains '\n') then some (String.mk w, String.mk rem)
  else if rem.getLast? == some '\n' && !(rem.dropLast.contains '\n') then
    some (String.mk w, String.mk rem.dropLast)
  else none

/-- Worker for `pySplitNonWord`: `some acc` while inside a word-character
segment (characters collected in reverse), `none` while skipping a run of
non-word separator characters. -/
def pySplitAux : List Char → Option (List Char) → List String
  | [], some acc => [String.mk acc.reverse]
  | [], none => [""]
  | c :: cs, some acc =>
    if isW c then pySplitAux cs (some (c :: acc))
    else String.mk acc.reverse :: pySplitAux cs none
  | c :: cs, none =>
    if isW c then pySplitAux cs (some [c]) else pySplitAux cs none

/-- Python `re.compile(r'\W+').split(s)` (line 94 of the source): the word
segments of `s` with maximal runs of non-word characters as separators,
keeping the empty segments Python keeps (`''` at a leading or trailing
separator, and `['']` for the empty string). -/
def pySplitNonWord (s : String) : List String := pySplitAux s.toList (some [])

/-- The `(rc, std_out, std_err)` triple `m.run_command` returns for the
state query `/usr/bin/authselect current --raw` (line 86). -/
structure QueryResult where
  rc : Int
  std_out : String
  std_err : String
deriving DecidableEq

/-- The dict `get_authselect_state` returns on success: keys `profile`,
`features` (both `None` in the unconfigured case) and `msg`. -/
structure AuthState where
  profile : Option String
  features : Option (List String)
  msg : String
deriving DecidableEq

/-- How a call of `get_authselect_state` ends. -/
inductive ReadOutcome where
  /-- The state dict is returned. -/
  | state (st : AuthState)
  /-- `m.fail_json(rc=..., stderr=..., msg=...)` aborts the module (lines 97-99). -/
  | failJson (rc : Int) (stderr : String) (msg : String)
  /-- An uncaught Python exception escapes (the `AttributeError` raised by
  `.group` on a failed match at line 93). -/
  | pyError (msg : String)
deriving DecidableEq

/-- The exact stdout literal recognised as "no configuration" (line 87). -/
def noConfigLiteral : String := "No existing configuration detected.\n"

/-- `get_authselect_state` (lines 84-99 of the source) as a function of the
query result. -/
def get_authselect_state (q : QueryResult) : ReadOutcome :=
  if q.rc = 2 ∧ q.std_out = noConfigLiteral then
    .state ⟨none, none, rstripNL q.std_out⟩
  else if q.rc = 2 ∧ q.std_err = "" then
    match matchProfileFeatures q.std_out with
    | some (p, f) => .state ⟨some p, some (pySplitNonWord f), "OK"⟩
    | none => .pyError "AttributeError: NoneType object has no attribute group"
  else
    .failJson q.rc q.std_err
      ("Failed to execute authselect command with '" ++ q.std_err ++ "'.")

/-- What `result['original_profile']` can hold: the seeded empty string
(line 116), later overwritten with the entire state dict (line 137). -/
inductive ProfileField where
  | str (s : String)
  | stateDict (st : AuthState)
deriving DecidableEq

/-- The `result` dict `run_module` builds: keys `changed`,
`original_profile`, `features` (seeded `[]`, never written again) and
`requested_profile` (absent until line 138 sets it). -/
structure ResultDict where
  changed : Bool
  original_profile : ProfileField
  features : List String
  requested_profile : Option String
deriving DecidableEq

/-- How a `run_module` invocation ends. -/
inductive ModuleExit where
  /-- `module.exit_json(**result)` (lines 133 and 153). -/
  | exitJson (r : ResultDict)
  /-- The `fail_json` inside `get_authselect_state`, which carries only
  `rc`, `stderr` and `msg`. -/
  | failQuery (rc : Int) (stderr : String) (msg : String)
  /-- `module.fail_json(msg=..., **result)` (line 149). -/
  | failWithResult (msg : String) (r : ResultDict)
  /-- An uncaught Python exception crashes the module. -/
  | crashed (msg : String)
deriving DecidableEq

/-- The external system as the module can observe or affect it: what the
state query returns.  The source runs no other external command, so the
query result is the whole observable system state. -/
structure Sys where
  query : QueryResult
deriving DecidableEq

/-- The argv of the only external command the source ever runs (line 86). -/
def queryCmd : List String := ["/usr/bin/authselect", "current", "--raw"]

/-- One invocation of `run_module`: how it exits, every external command it
invoked in order, and the system state afterwards. -/
structure ModuleRun where
  outcome : ModuleExit
  commands : List (List String)
  sys : Sys
deriving DecidableEq

/-- The seeded result dict (lines 114-118): `changed=False`,
`original_profile=''`, `features=[]`, no `requested_profile` key yet. -/
def seedResult : ResultDict := ⟨false, .str "", [], none⟩

/-- `run_module` (lines 102-153 of the source) as a function of the module
parameters (`profile`, `features`), the check-mode flag and the external
system.  The `features` parameter is declared in the argument spec but
never read by the body.  In check mode the module exits at line 133 with
the seeded result, before any external command.  Otherwise it reads the
state once, stores the whole state dict under `original_profile`, records
`requested_profile`, fails when the profile is the literal `'fail me'`,
and exits.  No branch mutates the system or sets `changed`. -/
def run_module (profile : String) (features : Option (List String))
    (check_mode : Bool) (s : Sys) : ModuleRun :=
  if check_mode then
    ⟨.exitJson seedResult, [], s⟩
  else
    match get_authselect_state s.query with
    | .failJson rc stderr msg => ⟨.failQuery rc stderr msg, [queryCmd], s⟩
    | .pyError msg => ⟨.crashed msg, [queryCmd], s⟩
    | .state st =>
      let r : ResultDict := ⟨false, .stateDict st, [], some profile⟩
      if profile = "fail me" then
        ⟨.failWithResult "You requested this to fail" r, [queryCmd], s⟩
      else
        ⟨.exitJson r, [queryCmd], s⟩

/-- The `changed` value the invocation passes back, when its exit carries a
result dict at all. -/
def ModuleExit.changedFlag : ModuleExit → Option Bool
  | .exitJson r => some r.changed
  | .failWithResult _ r => some r.changed
  | .failQuery _ _ _ => none
  | .crashed _ => none

end Authselect

namespace Authselect

/-! ## Helper lemmas shared by the claim theorems -/

/-- No branch of `run_module` mutates the external system. -/
theorem run_module_sys_eq (p : String) (f : Option (List String)) (cm : Bool)
    (s : Sys) : (run_module p f cm s).sys = s := by
  cases cm with
  | true => rfl
  | false =>
    cases h : get_authselect_state s.query with
    | state st => by_cases hp : p = "fail me" <;> simp [run_module, h, hp]
    | failJson rc stderr msg => simp [run_module, h]
    | pyError msg => simp [run_module, h]

/-- Every result dict a `run_module` invocation passes back carries
`changed = false` (the source never sets `changed`). -/
theorem run_module_changed_false (p : String) (f : Option (List String))
    (cm : Bool) (s : Sys) :
    (run_module p f cm s).outcome.changedFlag = some false ∨
      (run_module p f cm s).outcome.changedFlag = none := by
  cases cm with
  | true => left; rfl
  | false =>
    cases h : get_authselect_state s.query with
    | state st =>
      by_cases hp : p = "fail me" <;>
        simp [run_module, h, hp, ModuleExit.changedFlag]
    | failJson rc stderr msg => right; simp [run_module, h, ModuleExit.changedFlag]
    | pyError msg => right; simp [run_module, h, ModuleExit.changedFlag]

/-! ## The claims -/

/-- C1: the code evaluated where action is needed and dry-run is off.  With
desired profile `"sssd"`, requested feature `"with-sudo"`, check mode off
and an unconfigured system, `run_module` invokes only the read-only query
command — no commit command at all — and exits with `changed = false`,
against the claim's commit invocation and `changed = true`. -/
theorem c1_no_commit_invoked :
    run_module "sssd" (some ["with-sudo"]) false ⟨⟨2, noConfigLiteral, ""⟩⟩ =
      ⟨.exitJson ⟨false, .stateDict ⟨none, none, "No existing configuration detected."⟩,
          [], some "sssd"⟩,
        [queryCmd], ⟨⟨2, noConfigLiteral, ""⟩⟩⟩ := by rfl

/-- C2: the code evaluated in check mode where action is needed.  The module
exits immediately with the seeded result — no command at all, no state
read — and that result carries `changed = false`, against the claim's
`changed = true`. -/
theorem c2_check_mode_changed_false :
    run_module "sssd" (some ["with-sudo"]) true ⟨⟨2, noConfigLiteral, ""⟩⟩ =
        ⟨.exitJson seedResult, [], ⟨⟨2, noConfigLiteral, ""⟩⟩⟩ ∧
      seedResult.changed = false := ⟨rfl, rfl⟩

/-- C3: the code evaluated at the claim's parse example.  Exit code 2 with
stdout `"sssd with-sudo with-mkhomedir\n"` parses the profile correctly,
but the `\W+` split severs the hyphenated feature names, returning
`["with", "sudo", "with", "mkhomedir"]` instead of the claimed feature set
`{"with-sudo", "with-mkhomedir"}`. -/
theorem c3_split_severs_hyphenated_features :
    get_authselect_state ⟨2, "sssd with-sudo with-mkhomedir\n", ""⟩ =
      .state ⟨some "sssd", some ["with", "sudo", "with", "mkhomedir"], "OK"⟩ := by rfl

/-- C4: the code evaluated at an unparseable stdout under exit code 2 and
empty stderr.  `re.match` returns `None` and the source dereferences it,
so the module crashes with an `AttributeError` rather than returning the
claimed `QueryFailed`. -/
theorem c4_unparseable_stdout_crashes :
    get_authselect_state ⟨2, "", ""⟩ =
      .pyError "AttributeError: NoneType object has no attribute group" := by rfl

/-- C5: exit code 2 with stdout exactly the literal
`"No existing configuration detected.\n"` yields the unconfigured state —
profile and features both absent (`none`), not a failure — whatever the
stderr. -/
theorem c5_unconfigured_detected (e : String) :
    get_authselect_state ⟨2, noConfigLiteral, e⟩ =
      .state ⟨none, none, "No existing configuration detected."⟩ := by rfl

/-- C6: running the module twice in sequence against the same system, the
second run observing the state the first one left.  The first run leaves
the system untouched, the second run is identical to the first, and the
second run's result (when its exit carries one) has `changed = false`. -/
theorem c6_second_run_unchanged (p : String) (f : Option (List String))
    (cm : Bool) (s : Sys) :
    (run_module p f cm s).sys = s ∧
      run_module p f cm ((run_module p f cm s).sys) = run_module p f cm s ∧
      ((run_module p f cm ((run_module p f cm s).sys)).outcome.changedFlag =
          some false ∨
        (run_module p f cm ((run_module p f cm s).sys)).outcome.changedFlag =
          none) := by
  have hs : (run_module p f cm s).sys = s := run_module_sys_eq p f cm s
  refine ⟨hs, by rw [hs], ?_⟩
  rw [hs]
  exact run_module_changed_false p f cm s

/-- C7: any query result with exit code other than 2, or with exit code 2,
non-empty stderr and stdout not the unconfigured literal, is surfaced as
the failure branch carrying the exit code and the stderr verbatim in the
diagnostic, and the module aborts having run only the read-only query —
no mutation attempted. -/
theorem c7_query_failure_aborts (q : QueryResult) (p : String)
    (f : Option (List String))
    (h : q.rc ≠ 2 ∨ (q.rc = 2 ∧ q.std_err ≠ "" ∧ q.std_out ≠ noConfigLiteral)) :
    get_authselect_state q =
        .failJson q.rc q.std_err
          ("Failed to execute authselect command with '" ++ q.std_err ++ "'.") ∧
      run_module p f false ⟨q⟩ =
        ⟨.failQuery q.rc q.std_err
            ("Failed to execute authselect command with '" ++ q.std_err ++ "'."),
          [queryCmd], ⟨q⟩⟩ := by
  have hA : ¬(q.rc = 2 ∧ q.std_out = noConfigLiteral) := by
    rcases h with h1 | ⟨h2, h3, h4⟩
    · exact fun hc => h1 hc.1
    · exact fun hc => h4 hc.2
  have hB : ¬(q.rc = 2 ∧ q.std_err = "") := by
    rcases h with h1 | ⟨h2, h3, h4⟩
    · exact fun hc => h1 hc.1
    · exact fun hc => h3 hc.2
  have hg : get_authselect_state q =
      .failJson q.rc q.std_err
        ("Failed to execute authselect command with '" ++ q.std_err ++ "'.") := by
    unfold get_authselect_state
    rw [if_neg hA, if_neg hB]
  exact ⟨hg, by simp [run_module, hg]⟩

/-- C7 witness: the theorem applied at exit code 1 with stderr `"boom"`. -/
theorem c7_witness :
    get_authselect_state ⟨1, "", "boom"⟩ =
        .failJson 1 "boom" "Failed to execute authselect command with 'boom'." ∧
      run_module "sssd" none false ⟨⟨1, "", "boom"⟩⟩ =
        ⟨.failQuery 1 "boom" "Failed to execute authselect command with 'boom'.",
          [queryCmd], ⟨⟨1, "", "boom"⟩⟩⟩ :=
  c7_query_failure_aborts ⟨1, "", "boom"⟩ "sssd" none (Or.inl (by decide))

/-- C8: the code evaluated on a configured system.  The output field
`original_profile` holds the entire state dict returned by the reader, not
the profile string, and the result carries no `original_features` field at
all (only the vestigial `features` key, seeded `[]` and never written). -/
theorem c8_original_profile_not_a_string :
    (run_module "sssd" none false ⟨⟨2, "sssd with-sudo\n", ""⟩⟩).outcome =
        .exitJson ⟨false, .stateDict ⟨some "sssd", some ["with", "sudo"], "OK"⟩,
          [], some "sssd"⟩ ∧
      ProfileField.stateDict ⟨some "sssd", some ["with", "sudo"], "OK"⟩ ≠
        ProfileField.str "sssd" := ⟨rfl, by decide⟩

/-- C9: the code evaluated at exit code 2, empty stderr and stdout a
profile token followed only by a separator (`"sssd\n"`).  The empty
features remainder is split into `[""]` — a singleton holding the empty
string, not the claimed empty feature set. -/
theorem c9_empty_remainder_not_empty_set :
    get_authselect_state ⟨2, "sssd\n", ""⟩ =
        .state ⟨some "sssd", some [""], "OK"⟩ ∧
      ([""] : List String) ≠ [] := ⟨rfl, by decide⟩

/-- C10: outside check mode, whenever the state read succeeds, requesting
the profile `'fail me'` makes the module fail with the message
`"You requested this to fail"`, whatever the system's configuration. -/
theorem c10_fail_me_always_fails (f : Option (List String)) (s : Sys)
    (st : AuthState) (h : get_authselect_state s.query = .state st) :
    run_module "fail me" f false s =
      ⟨.failWithResult "You requested this to fail"
          ⟨false, .stateDict st, [], some "fail me"⟩,
        [queryCmd], s⟩ := by
  simp [run_module, h]

/-- C10 witness: the theorem applied on an unconfigured system. -/
theorem c10_witness :
    run_module "fail me" none false ⟨⟨2, noConfigLiteral, ""⟩⟩ =
      ⟨.failWithResult "You requested this to fail"
          ⟨false, .stateDict ⟨none, none, "No existing configuration detected."⟩,
            [], some "fail me"⟩,
        [queryCmd], ⟨⟨2, noConfigLiteral, ""⟩⟩⟩ :=
  c10_fail_me_always_fails none ⟨⟨2, noConfigLiteral, ""⟩⟩
    ⟨none, none, "No existing configuration detected."⟩ (by rfl)

end Authselect
